import Mathlib

/-!
Verification of the motion-update core of `snoopy_chase.py` (the `ChaserApp`
class): per-tick target tracking with eased velocity, speed capping, boundary
clamping, and pointer-overlap hit-testing.  The UI layer (Tkinter canvas,
dialogs, asset loading) is out of scope; the state the core reads and writes
is modelled explicitly, with real numbers in place of Python floats.
-/

namespace SnoopyChase

/-- Configuration constant `TARGET_EASING = 0.15` from the source header. -/
noncomputable def TARGET_EASING : ℝ := 0.15

/-- Configuration constant `MAX_SPEED = 18` (pixels per frame cap). -/
noncomputable def MAX_SPEED : ℝ := 18

/-- Configuration constant `POINTER_PADDING = 2` (pixels around the sprite). -/
noncomputable def POINTER_PADDING : ℝ := 2

/-- The epsilon `1e-6` used in `loop` to avoid division by zero. -/
noncomputable def EPS : ℝ := 1 / 1000000

/-- The mutable state of `ChaserApp` that the motion core reads and writes:
sprite center position (canvas coords of `self.sprite`), the unused velocity
field `self.vel`, the latest mouse target `self.target`, the sprite pixel
dimensions `self.sprite_w` / `self.sprite_h`, and the canvas dimensions
(`winfo_width` / `winfo_height`). -/
structure ChaserApp where
  pos : ℝ × ℝ
  vel : ℝ × ℝ
  target : ℝ × ℝ
  sprite_w : ℝ
  sprite_h : ℝ
  canvas_w : ℝ
  canvas_h : ℝ

/-- `ChaserApp.clamp_to_canvas`:
`nx = min(max(x, half_w), max(half_w, w - half_w))` and likewise for `y`. -/
noncomputable def clamp_to_canvas (s : ChaserApp) (x y : ℝ) : ℝ × ℝ :=
  (min (max x (s.sprite_w / 2)) (max (s.sprite_w / 2) (s.canvas_w - s.sprite_w / 2)),
   min (max y (s.sprite_h / 2)) (max (s.sprite_h / 2) (s.canvas_h - s.sprite_h / 2)))

/-- `ChaserApp.pointer_over_sprite`: the sprite bounding box around the current
center, expanded by `POINTER_PADDING` on all sides, contains the latest mouse
target, with inclusive bounds. -/
def pointer_over_sprite (s : ChaserApp) : Prop :=
  s.pos.1 - s.sprite_w / 2 - POINTER_PADDING ≤ s.target.1 ∧
    s.target.1 ≤ s.pos.1 + s.sprite_w / 2 + POINTER_PADDING ∧
    s.pos.2 - s.sprite_h / 2 - POINTER_PADDING ≤ s.target.2 ∧
    s.target.2 ≤ s.pos.2 + s.sprite_h / 2 + POINTER_PADDING

/-- The uncapped desired velocity of a tick: `(dx * TARGET_EASING, dy * TARGET_EASING)`
with `dx, dy` the delta from the sprite position to the target. -/
noncomputable def desired_raw (s : ChaserApp) : ℝ × ℝ :=
  ((s.target.1 - s.pos.1) * TARGET_EASING, (s.target.2 - s.pos.2) * TARGET_EASING)

/-- Euclidean magnitude of a 2-vector, `math.hypot(vx, vy)` in the source. -/
noncomputable def vecNorm (v : ℝ × ℝ) : ℝ := Real.sqrt (v.1 ^ 2 + v.2 ^ 2)

/-- The desired velocity after the speed cap of `loop`: the `speed` is the
Euclidean magnitude of the uncapped desired velocity, and when
`speed > MAX_SPEED` both components are multiplied by
`MAX_SPEED / max(speed, 1e-6)`. -/
noncomputable def desired_velocity (s : ChaserApp) : ℝ × ℝ :=
  if vecNorm (desired_raw s) > MAX_SPEED then
    ((desired_raw s).1 * (MAX_SPEED / max (vecNorm (desired_raw s)) EPS),
     (desired_raw s).2 * (MAX_SPEED / max (vecNorm (desired_raw s)) EPS))
  else desired_raw s

/-- One invocation of the body of `ChaserApp.loop` (one timer tick): compute the
eased, capped velocity from the position/target delta, add it to the position,
clamp to the canvas and commit via `canvas.coords`.  Only `pos` changes. -/
noncomputable def tick (s : ChaserApp) : ChaserApp :=
  ⟨clamp_to_canvas s (s.pos.1 + (desired_velocity s).1) (s.pos.2 + (desired_velocity s).2),
   s.vel, s.target, s.sprite_w, s.sprite_h, s.canvas_w, s.canvas_h⟩

/-- The `hide_cursor` output of a tick: `loop` calls `pointer_over_sprite`
after committing the new coordinates, so the test uses the new center and the
latest target. -/
noncomputable def tick_hide_cursor (s : ChaserApp) : Prop :=
  pointer_over_sprite (tick s)

/-- A canvas-size update followed by `ChaserApp.on_resize`, which reads the
current sprite coords, clamps them against the new canvas size, and commits
them when they changed (committing an unchanged pair is the identity). -/
noncomputable def set_canvas_size (s : ChaserApp) (w h : ℝ) : ChaserApp :=
  let s' : ChaserApp := ⟨s.pos, s.vel, s.target, s.sprite_w, s.sprite_h, w, h⟩
  ⟨clamp_to_canvas s' s.pos.1 s.pos.2, s.vel, s.target, s.sprite_w, s.sprite_h, w, h⟩

/-- The componentwise clamping range of the canvas holds the sprite position:
`[half_w, max(half_w, canvas_w - half_w)] x [half_h, max(half_h, canvas_h - half_h)]`. -/
noncomputable def pos_in_bounds (s : ChaserApp) : Prop :=
  s.sprite_w / 2 ≤ s.pos.1 ∧
    s.pos.1 ≤ max (s.sprite_w / 2) (s.canvas_w - s.sprite_w / 2) ∧
    s.sprite_h / 2 ≤ s.pos.2 ∧
    s.pos.2 ≤ max (s.sprite_h / 2) (s.canvas_h - s.sprite_h / 2)

/-- The target lies in the componentwise clamping range of the canvas. -/
noncomputable def target_in_bounds (s : ChaserApp) : Prop :=
  s.sprite_w / 2 ≤ s.target.1 ∧
    s.target.1 ≤ max (s.sprite_w / 2) (s.canvas_w - s.sprite_w / 2) ∧
    s.sprite_h / 2 ≤ s.target.2 ∧
    s.target.2 ≤ max (s.sprite_h / 2) (s.canvas_h - s.sprite_h / 2)

/-- Euclidean distance between two points. -/
noncomputable def euclid_dist (p q : ℝ × ℝ) : ℝ :=
  Real.sqrt ((p.1 - q.1) ^ 2 + (p.2 - q.2) ^ 2)

section ClampLemmas

/-- One-dimensional clamp in the shape the source uses. -/
noncomputable def clamp1 (x lo hi : ℝ) : ℝ := min (max x lo) hi

theorem clamp_to_canvas_eq (s : ChaserApp) (x y : ℝ) :
    clamp_to_canvas s x y =
      (clamp1 x (s.sprite_w / 2) (max (s.sprite_w / 2) (s.canvas_w - s.sprite_w / 2)),
       clamp1 y (s.sprite_h / 2) (max (s.sprite_h / 2) (s.canvas_h - s.sprite_h / 2))) := rfl

theorem clamp1_le (x lo hi : ℝ) : clamp1 x lo hi ≤ hi := min_le_right _ _

theorem le_clamp1 (x lo hi : ℝ) (h : lo ≤ hi) : lo ≤ clamp1 x lo hi :=
  le_min (le_max_right _ _) h

theorem clamp1_eq_self (x lo hi : ℝ) (h1 : lo ≤ x) (h2 : x ≤ hi) :
    clamp1 x lo hi = x := by
  unfold clamp1
  rw [max_eq_left h1, min_eq_left h2]

theorem clamp1_idem (x lo hi : ℝ) (h : lo ≤ hi) :
    clamp1 (clamp1 x lo hi) lo hi = clamp1 x lo hi :=
  clamp1_eq_self _ _ _ (le_clamp1 x lo hi h) (clamp1_le x lo hi)

theorem clamp1_lipschitz (a b lo hi : ℝ) :
    |clamp1 a lo hi - clamp1 b lo hi| ≤ |a - b| := by
  unfold clamp1
  calc |min (max a lo) hi - min (max b lo) hi|
      ≤ max |max a lo - max b lo| |hi - hi| := abs_min_sub_min_le_max _ _ _ _
    _ ≤ |a - b| := by
        rw [sub_self, abs_zero]
        exact max_le (abs_max_sub_max_le_abs a b lo) (abs_nonneg _)

theorem clamp1_dist_to_point (a p lo hi : ℝ) (h1 : lo ≤ p) (h2 : p ≤ hi) :
    |clamp1 a lo hi - p| ≤ |a - p| := by
  have h := clamp1_lipschitz a p lo hi
  rwa [clamp1_eq_self p lo hi h1 h2] at h

theorem clamp1_pin (x lo c : ℝ) (h : c ≤ lo) : clamp1 x lo (max lo c) = lo := by
  unfold clamp1
  rw [max_eq_left h, min_eq_right (le_max_right x lo)]

end ClampLemmas

section TickLemmas

theorem tick_pos_eq (s : ChaserApp) :
    (tick s).pos =
      (clamp1 (s.pos.1 + (desired_velocity s).1) (s.sprite_w / 2)
        (max (s.sprite_w / 2) (s.canvas_w - s.sprite_w / 2)),
       clamp1 (s.pos.2 + (desired_velocity s).2) (s.sprite_h / 2)
        (max (s.sprite_h / 2) (s.canvas_h - s.sprite_h / 2))) := rfl

theorem desired_velocity_of_le (s : ChaserApp) (h : vecNorm (desired_raw s) ≤ MAX_SPEED) :
    desired_velocity s = desired_raw s := if_neg (not_lt.mpr h)

theorem eps_le_of_gt (s : ChaserApp) (h : MAX_SPEED < vecNorm (desired_raw s)) :
    EPS ≤ vecNorm (desired_raw s) := by
  have : EPS ≤ MAX_SPEED := by unfold EPS MAX_SPEED; norm_num
  linarith

theorem desired_velocity_of_gt (s : ChaserApp) (h : MAX_SPEED < vecNorm (desired_raw s)) :
    desired_velocity s =
      ((desired_raw s).1 * (MAX_SPEED / vecNorm (desired_raw s)),
       (desired_raw s).2 * (MAX_SPEED / vecNorm (desired_raw s))) := by
  unfold desired_velocity
  rw [if_pos h, max_eq_left (eps_le_of_gt s h)]

theorem vecNorm_nonneg (v : ℝ × ℝ) : 0 ≤ vecNorm v := Real.sqrt_nonneg _

theorem vecNorm_scale (c : ℝ) (v : ℝ × ℝ) :
    vecNorm (v.1 * c, v.2 * c) = |c| * vecNorm v := by
  unfold vecNorm
  rw [show (v.1 * c) ^ 2 + (v.2 * c) ^ 2 = c ^ 2 * (v.1 ^ 2 + v.2 ^ 2) by ring,
      Real.sqrt_mul (sq_nonneg c), Real.sqrt_sq_eq_abs]

theorem max_speed_pos : (0 : ℝ) < MAX_SPEED := by unfold MAX_SPEED; norm_num

theorem desired_velocity_norm_le (s : ChaserApp) :
    vecNorm (desired_velocity s) ≤ MAX_SPEED := by
  by_cases h : vecNorm (desired_raw s) ≤ MAX_SPEED
  · rw [desired_velocity_of_le s h]; exact h
  · push_neg at h
    have hpos : 0 < vecNorm (desired_raw s) := lt_trans max_speed_pos h
    rw [desired_velocity_of_gt s h, vecNorm_scale,
        abs_of_pos (div_pos max_speed_pos hpos), div_mul_cancel₀ _ (ne_of_gt hpos)]

end TickLemmas

/-- Claim C10: the clamping function is idempotent — for every input point,
sprite half-size and canvas size, applying `clamp_to_canvas` to its own output
returns that output unchanged. -/
theorem clamp_to_canvas_idem (s : ChaserApp) (x y : ℝ) :
    clamp_to_canvas s (clamp_to_canvas s x y).1 (clamp_to_canvas s x y).2 =
      clamp_to_canvas s x y := by
  simp only [clamp_to_canvas_eq]
  exact Prod.ext (clamp1_idem _ _ _ (le_max_left _ _)) (clamp1_idem _ _ _ (le_max_left _ _))

/-- Claim C1: after every tick the committed position lies componentwise within
`[half_size, max(half_size, canvas_size - half_size)]`, and in a dimension
where the canvas is smaller than the sprite the position is pinned to
`half_size` (not the canvas center). -/
theorem tick_pos_in_bounds (s : ChaserApp) :
    pos_in_bounds (tick s) ∧
      (s.canvas_w < s.sprite_w → (tick s).pos.1 = s.sprite_w / 2) ∧
      (s.canvas_h < s.sprite_h → (tick s).pos.2 = s.sprite_h / 2) := by
  refine ⟨⟨?_, ?_, ?_, ?_⟩, ?_, ?_⟩
  · exact le_clamp1 _ _ _ (le_max_left _ _)
  · exact clamp1_le _ _ _
  · exact le_clamp1 _ _ _ (le_max_left _ _)
  · exact clamp1_le _ _ _
  · intro h
    exact clamp1_pin _ _ _ (by linarith)
  · intro h
    exact clamp1_pin _ _ _ (by linarith)

/-- Witness for C1: with sprite 100x60 and a 60x50 canvas (smaller than the
sprite in both dimensions), the tick pins the position to the half-size. -/
theorem tick_pos_in_bounds_witness :
    (tick ⟨(10, 10), (0, 0), (0, 0), 100, 60, 60, 50⟩).pos.1 = 100 / 2 ∧
      (tick ⟨(10, 10), (0, 0), (0, 0), 100, 60, 60, 50⟩).pos.2 = 60 / 2 :=
  ⟨(tick_pos_in_bounds _).2.1 (by norm_num), (tick_pos_in_bounds _).2.2 (by norm_num)⟩

/-- Claim C8: `set_canvas_size` immediately reclamps the sprite position into
the new bounds; concretely, position (10,10) with sprite half-size (50,30) and
the canvas shrinking to (60,50) is reclamped to (50,30), pinned to the
half-size in each dimension. -/
theorem set_canvas_size_reclamps :
    (∀ (s : ChaserApp) (w h : ℝ), pos_in_bounds (set_canvas_size s w h)) ∧
      (set_canvas_size ⟨(10, 10), (0, 0), (0, 0), 100, 60, 900, 600⟩ 60 50).pos = (50, 30) := by
  constructor
  · intro s w h
    exact ⟨le_clamp1 _ _ _ (le_max_left _ _), clamp1_le _ _ _,
      le_clamp1 _ _ _ (le_max_left _ _), clamp1_le _ _ _⟩
  · show (clamp1 10 (100 / 2) (max (100 / 2) (60 - 100 / 2)),
          clamp1 10 (60 / 2) (max (60 / 2) (50 - 60 / 2))) = ((50 : ℝ), (30 : ℝ))
    rw [show ((100 : ℝ) / 2) = 50 by norm_num, show ((60 : ℝ) / 2) = 30 by norm_num,
        clamp1_pin 10 50 (60 - 50) (by norm_num), clamp1_pin 10 30 (50 - 30) (by norm_num)]

/-- Witness for C8: the reclamped position of the concrete resize lies in the
new bounds, by the general part of the theorem. -/
theorem set_canvas_size_reclamps_witness :
    pos_in_bounds (set_canvas_size ⟨(10, 10), (0, 0), (0, 0), 100, 60, 900, 600⟩ 60 50) :=
  set_canvas_size_reclamps.1 _ 60 50

/-- Claim C7: the `hide_cursor` output of a tick is true exactly when the
last-known target falls, with inclusive bounds, inside the sprite box expanded
by the padding around the new center; with center (100,100), half-size (20,20)
and padding 2, target (122,122) overlaps and target (123,100) does not. -/
theorem tick_hide_cursor_iff :
    (∀ s : ChaserApp, tick_hide_cursor s ↔
      ((tick s).pos.1 - s.sprite_w / 2 - POINTER_PADDING ≤ s.target.1 ∧
        s.target.1 ≤ (tick s).pos.1 + s.sprite_w / 2 + POINTER_PADDING ∧
        (tick s).pos.2 - s.sprite_h / 2 - POINTER_PADDING ≤ s.target.2 ∧
        s.target.2 ≤ (tick s).pos.2 + s.sprite_h / 2 + POINTER_PADDING)) ∧
      pointer_over_sprite ⟨(100, 100), (0, 0), (122, 122), 40, 40, 900, 600⟩ ∧
      (pointer_over_sprite ⟨(100, 100), (0, 0), (123, 100), 40, 40, 900, 600⟩ ↔ False) := by
  refine ⟨fun s => Iff.rfl, ?_, ?_⟩
  · show (100 : ℝ) - 40 / 2 - POINTER_PADDING ≤ 122 ∧ (122 : ℝ) ≤ 100 + 40 / 2 + POINTER_PADDING ∧
      (100 : ℝ) - 40 / 2 - POINTER_PADDING ≤ 122 ∧ (122 : ℝ) ≤ 100 + 40 / 2 + POINTER_PADDING
    unfold POINTER_PADDING
    norm_num
  · simp only [iff_false]
    intro hcontra
    have h2 := hcontra.2.1
    unfold POINTER_PADDING at h2
    norm_num at h2

/-- Witness for C7: the general equivalence applied at a concrete state. -/
theorem tick_hide_cursor_iff_witness :
    tick_hide_cursor ⟨(100, 100), (0, 0), (122, 122), 40, 40, 900, 600⟩ ↔
      ((tick ⟨(100, 100), (0, 0), (122, 122), 40, 40, 900, 600⟩).pos.1 - 40 / 2 - POINTER_PADDING ≤ 122 ∧
        (122 : ℝ) ≤ (tick ⟨(100, 100), (0, 0), (122, 122), 40, 40, 900, 600⟩).pos.1 + 40 / 2 + POINTER_PADDING ∧
        (tick ⟨(100, 100), (0, 0), (122, 122), 40, 40, 900, 600⟩).pos.2 - 40 / 2 - POINTER_PADDING ≤ 122 ∧
        (122 : ℝ) ≤ (tick ⟨(100, 100), (0, 0), (122, 122), 40, 40, 900, 600⟩).pos.2 + 40 / 2 + POINTER_PADDING) :=
  tick_hide_cursor_iff.1 ⟨(100, 100), (0, 0), (122, 122), 40, 40, 900, 600⟩

/-- Claim C9: the per-tick step is a pure function of position, target and
canvas size (given the same sprite dimensions, which are configuration fixed
at startup): the stored velocity field influences neither the new position nor
the `hide_cursor` output. -/
theorem tick_pure (s1 s2 : ChaserApp) (hp : s1.pos = s2.pos) (ht : s1.target = s2.target)
    (hw : s1.canvas_w = s2.canvas_w) (hh : s1.canvas_h = s2.canvas_h)
    (hsw : s1.sprite_w = s2.sprite_w) (hsh : s1.sprite_h = s2.sprite_h) :
    (tick s1).pos = (tick s2).pos ∧ (tick_hide_cursor s1 ↔ tick_hide_cursor s2) := by
  obtain ⟨p1, v1, t1, a1, b1, c1, d1⟩ := s1
  obtain ⟨p2, v2, t2, a2, b2, c2, d2⟩ := s2
  simp only at hp ht hw hh hsw hsh
  subst hp ht hw hh hsw hsh
  exact ⟨rfl, Iff.rfl⟩

/-- Witness for C9: two states equal except for the stored velocity produce
the same new position. -/
theorem tick_pure_witness :
    (tick ⟨(450, 300), (0, 0), (100, 100), 100, 60, 900, 600⟩).pos =
      (tick ⟨(450, 300), (5, 7), (100, 100), 100, 60, 900, 600⟩).pos :=
  (tick_pure _ _ rfl rfl rfl rfl rfl rfl).1

/-- Claim C6: if the position equals the target (and the position is within
the clamping bounds, as the invariant guarantees), a tick leaves the position
unchanged: the delta is zero, so the desired velocity is zero, and clamping an
in-bounds position is the identity. -/
theorem tick_at_rest (s : ChaserApp) (ht : s.target = s.pos) (hb : pos_in_bounds s) :
    (tick s).pos = s.pos := by
  have hraw : desired_raw s = (0, 0) := by
    unfold desired_raw
    rw [ht]
    simp
  have hnorm : vecNorm (desired_raw s) ≤ MAX_SPEED := by
    rw [hraw]
    unfold vecNorm
    norm_num [Real.sqrt_zero]
    exact le_of_lt max_speed_pos
  have hv : desired_velocity s = (0, 0) := by
    rw [desired_velocity_of_le s hnorm, hraw]
  obtain ⟨hb1, hb2, hb3, hb4⟩ := hb
  rw [tick_pos_eq, hv]
  show (clamp1 (s.pos.1 + 0) _ _, clamp1 (s.pos.2 + 0) _ _) = s.pos
  rw [add_zero, add_zero, clamp1_eq_self _ _ _ hb1 hb2, clamp1_eq_self _ _ _ hb3 hb4]

/-- Witness for C6: a concrete in-bounds rest state is a fixed point of the
tick. -/
theorem tick_at_rest_witness :
    (tick ⟨(450, 300), (0, 0), (450, 300), 100, 60, 900, 600⟩).pos = (450, 300) :=
  tick_at_rest ⟨(450, 300), (0, 0), (450, 300), 100, 60, 900, 600⟩ rfl
    ⟨by norm_num, le_trans (by norm_num) (le_max_right _ _),
     by norm_num, le_trans (by norm_num) (le_max_right _ _)⟩

/-- Claim C2: the per-tick velocity magnitude never exceeds `MAX_SPEED`, and
for a tick starting from an in-bounds position (as the invariant guarantees)
the Euclidean magnitude of the committed displacement never exceeds
`MAX_SPEED` either, since componentwise clamping is nonexpansive. -/
theorem tick_speed_cap (s : ChaserApp) (hb : pos_in_bounds s) :
    vecNorm (desired_velocity s) ≤ MAX_SPEED ∧
      euclid_dist (tick s).pos s.pos ≤ MAX_SPEED := by
  have h1 := desired_velocity_norm_le s
  refine ⟨h1, le_trans ?_ h1⟩
  obtain ⟨hb1, hb2, hb3, hb4⟩ := hb
  have hx : |(tick s).pos.1 - s.pos.1| ≤ |(desired_velocity s).1| := by
    have h := clamp1_dist_to_point (s.pos.1 + (desired_velocity s).1) s.pos.1
      (s.sprite_w / 2) (max (s.sprite_w / 2) (s.canvas_w - s.sprite_w / 2)) hb1 hb2
    rw [add_sub_cancel_left] at h
    exact h
  have hy : |(tick s).pos.2 - s.pos.2| ≤ |(desired_velocity s).2| := by
    have h := clamp1_dist_to_point (s.pos.2 + (desired_velocity s).2) s.pos.2
      (s.sprite_h / 2) (max (s.sprite_h / 2) (s.canvas_h - s.sprite_h / 2)) hb3 hb4
    rw [add_sub_cancel_left] at h
    exact h
  unfold euclid_dist vecNorm
  apply Real.sqrt_le_sqrt
  have hx2 : ((tick s).pos.1 - s.pos.1) ^ 2 ≤ (desired_velocity s).1 ^ 2 := by
    rw [← sq_abs ((tick s).pos.1 - s.pos.1), ← sq_abs (desired_velocity s).1]
    exact pow_le_pow_left₀ (abs_nonneg _) hx 2
  have hy2 : ((tick s).pos.2 - s.pos.2) ^ 2 ≤ (desired_velocity s).2 ^ 2 := by
    rw [← sq_abs ((tick s).pos.2 - s.pos.2), ← sq_abs (desired_velocity s).2]
    exact pow_le_pow_left₀ (abs_nonneg _) hy 2
  linarith

/-- Witness for C2: the speed cap at a concrete in-bounds state chasing a far
target. -/
theorem tick_speed_cap_witness :
    pos_in_bounds ⟨(450, 300), (0, 0), (0, 0), 100, 60, 900, 600⟩ ∧
      euclid_dist (tick ⟨(450, 300), (0, 0), (0, 0), 100, 60, 900, 600⟩).pos (450, 300) ≤
        MAX_SPEED := by
  have hb : pos_in_bounds ⟨(450, 300), (0, 0), (0, 0), 100, 60, 900, 600⟩ :=
    ⟨by norm_num, le_trans (by norm_num) (le_max_right _ _),
     by norm_num, le_trans (by norm_num) (le_max_right _ _)⟩
  exact ⟨hb, (tick_speed_cap _ hb).2⟩

/-- Claim C3: in a tick where the uncapped desired velocity has magnitude
strictly greater than `MAX_SPEED`, both components are scaled by
`MAX_SPEED / max(speed, EPS)` with `EPS = 1e-6`, and the result has magnitude
exactly `MAX_SPEED` and the same direction (a positive multiple of the
unscaled desired velocity). -/
theorem tick_speed_scaling (s : ChaserApp) (h : MAX_SPEED < vecNorm (desired_raw s)) :
    desired_velocity s =
      ((desired_raw s).1 * (MAX_SPEED / max (vecNorm (desired_raw s)) EPS),
       (desired_raw s).2 * (MAX_SPEED / max (vecNorm (desired_raw s)) EPS)) ∧
      vecNorm (desired_velocity s) = MAX_SPEED ∧
      ∃ c : ℝ, 0 < c ∧ (desired_velocity s).1 = c * (desired_raw s).1 ∧
        (desired_velocity s).2 = c * (desired_raw s).2 := by
  have hpos : 0 < vecNorm (desired_raw s) := lt_trans max_speed_pos h
  have hmax : max (vecNorm (desired_raw s)) EPS = vecNorm (desired_raw s) :=
    max_eq_left (eps_le_of_gt s h)
  have hv := desired_velocity_of_gt s h
  refine ⟨by rw [hv, hmax], ?_, ?_⟩
  · rw [hv, vecNorm_scale, abs_of_pos (div_pos max_speed_pos hpos),
      div_mul_cancel₀ _ (ne_of_gt hpos)]
  · exact ⟨MAX_SPEED / vecNorm (desired_raw s), div_pos max_speed_pos hpos,
      by rw [hv]; exact mul_comm _ _, by rw [hv]; exact mul_comm _ _⟩

/-- Witness for C3: at position (450,300) chasing target (0,0) the uncapped
speed exceeds the limit and the capped velocity has magnitude exactly
`MAX_SPEED`. -/
theorem tick_speed_scaling_witness :
    MAX_SPEED < vecNorm (desired_raw ⟨(450, 300), (0, 0), (0, 0), 100, 60, 900, 600⟩) ∧
      vecNorm (desired_velocity ⟨(450, 300), (0, 0), (0, 0), 100, 60, 900, 600⟩) = MAX_SPEED := by
  have hgt : MAX_SPEED < vecNorm (desired_raw ⟨(450, 300), (0, 0), (0, 0), 100, 60, 900, 600⟩) := by
    show (18 : ℝ) < Real.sqrt ((((0 : ℝ) - 450) * TARGET_EASING) ^ 2 +
      (((0 : ℝ) - 300) * TARGET_EASING) ^ 2)
    rw [show (((0 : ℝ) - 450) * TARGET_EASING) ^ 2 + (((0 : ℝ) - 300) * TARGET_EASING) ^ 2
        = 6581.25 by unfold TARGET_EASING; norm_num]
    exact Real.lt_sqrt_of_sq_lt (by norm_num)
  exact ⟨hgt, (tick_speed_scaling _ hgt).2.1⟩

/-- The spec scenario state: canvas 900x600, sprite half-size (50,30) (so
sprite 100x60), position (450,300), target (0,0). -/
noncomputable def scenario_state : ChaserApp := ⟨(450, 300), (0, 0), (0, 0), 100, 60, 900, 600⟩

/-- Claim C4: in the scenario state a single tick computes delta (-450,-300),
desired velocity (-67.5,-45) whose speed exceeds 18, scales it to magnitude 18
along the same direction, approximately (-14.98,-9.99), and commits
approximately (435.02, 290.01), unaltered by clamping (tolerance 0.01 on every
approximate value). -/
theorem tick_scenario :
    scenario_state.target.1 - scenario_state.pos.1 = -450 ∧
      scenario_state.target.2 - scenario_state.pos.2 = -300 ∧
      desired_raw scenario_state = (-67.5, -45) ∧
      MAX_SPEED < vecNorm (desired_raw scenario_state) ∧
      |(desired_velocity scenario_state).1 - (-14.98)| < 0.01 ∧
      |(desired_velocity scenario_state).2 - (-9.99)| < 0.01 ∧
      (tick scenario_state).pos =
        (450 + (desired_velocity scenario_state).1, 300 + (desired_velocity scenario_state).2) ∧
      |(tick scenario_state).pos.1 - 435.02| < 0.01 ∧
      |(tick scenario_state).pos.2 - 290.01| < 0.01 := by
  have hraw : desired_raw scenario_state = (-67.5, -45) := by
    show ((((0 : ℝ) - 450) * TARGET_EASING, ((0 : ℝ) - 300) * TARGET_EASING) : ℝ × ℝ)
      = (-67.5, -45)
    unfold TARGET_EASING
    norm_num
  have hqe : vecNorm (desired_raw scenario_state) = Real.sqrt 6581.25 := by
    rw [hraw]
    show Real.sqrt ((-67.5 : ℝ) ^ 2 + (-45 : ℝ) ^ 2) = Real.sqrt 6581.25
    norm_num
  have hq1 : (81.124 : ℝ) < Real.sqrt 6581.25 := Real.lt_sqrt_of_sq_lt (by norm_num)
  have hq2 : Real.sqrt 6581.25 < 81.125 := (Real.sqrt_lt' (by norm_num)).mpr (by norm_num)
  have hq0 : (0 : ℝ) < Real.sqrt 6581.25 := lt_trans (by norm_num) hq1
  have hgt : MAX_SPEED < vecNorm (desired_raw scenario_state) := by
    rw [hqe]
    exact lt_trans (by unfold MAX_SPEED; norm_num) hq1
  have hv : desired_velocity scenario_state =
      (-67.5 * (18 / Real.sqrt 6581.25), -45 * (18 / Real.sqrt 6581.25)) := by
    rw [desired_velocity_of_gt _ hgt, hqe, hraw]
    unfold MAX_SPEED
    norm_num
  have hv1 : (desired_velocity scenario_state).1 = -67.5 * (18 / Real.sqrt 6581.25) := by
    rw [hv]
  have hv2 : (desired_velocity scenario_state).2 = -45 * (18 / Real.sqrt 6581.25) := by
    rw [hv]
  have e1 : (-67.5 : ℝ) * (18 / Real.sqrt 6581.25) = -(1215 / Real.sqrt 6581.25) := by ring
  have e2 : (-45 : ℝ) * (18 / Real.sqrt 6581.25) = -(810 / Real.sqrt 6581.25) := by ring
  have k1 : (14.97 : ℝ) < 1215 / Real.sqrt 6581.25 := by
    rw [lt_div_iff₀ hq0]
    nlinarith [hq2]
  have k2 : (1215 : ℝ) / Real.sqrt 6581.25 < 14.99 := by
    rw [div_lt_iff₀ hq0]
    nlinarith [hq1]
  have k3 : (9.98 : ℝ) < 810 / Real.sqrt 6581.25 := by
    rw [lt_div_iff₀ hq0]
    nlinarith [hq2]
  have k4 : (810 : ℝ) / Real.sqrt 6581.25 < 10 := by
    rw [div_lt_iff₀ hq0]
    nlinarith [hq1]
  have habs1 : |(desired_velocity scenario_state).1 - (-14.98)| < 0.01 := by
    rw [hv1, e1, abs_lt]
    constructor <;> linarith
  have habs2 : |(desired_velocity scenario_state).2 - (-9.99)| < 0.01 := by
    rw [hv2, e2, abs_lt]
    constructor <;> linarith
  have hcommit : (tick scenario_state).pos =
      (450 + (desired_velocity scenario_state).1, 300 + (desired_velocity scenario_state).2) := by
    rw [tick_pos_eq]
    refine Prod.ext ?_ ?_
    · show clamp1 (450 + (desired_velocity scenario_state).1) (100 / 2)
        (max (100 / 2) (900 - 100 / 2)) = 450 + (desired_velocity scenario_state).1
      refine clamp1_eq_self _ _ _ (by rw [hv1, e1]; linarith) ?_
      refine le_trans ?_ (le_max_right _ _)
      rw [hv1, e1]
      linarith
    · show clamp1 (300 + (desired_velocity scenario_state).2) (60 / 2)
        (max (60 / 2) (600 - 60 / 2)) = 300 + (desired_velocity scenario_state).2
      refine clamp1_eq_self _ _ _ (by rw [hv2, e2]; linarith) ?_
      refine le_trans ?_ (le_max_right _ _)
      rw [hv2, e2]
      linarith
  have hfin1 : |(tick scenario_state).pos.1 - 435.02| < 0.01 := by
    rw [hcommit]
    show |450 + (desired_velocity scenario_state).1 - 435.02| < 0.01
    rw [hv1, e1, abs_lt]
    constructor <;> linarith
  have hfin2 : |(tick scenario_state).pos.2 - 290.01| < 0.01 := by
    rw [hcommit]
    show |300 + (desired_velocity scenario_state).2 - 290.01| < 0.01
    rw [hv2, e2, abs_lt]
    constructor <;> linarith
  exact ⟨by norm_num [scenario_state], by norm_num [scenario_state], hraw, hgt, habs1, habs2,
    hcommit, hfin1, hfin2⟩

/-- Claim C5 counterexample: with canvas 900x600 and sprite half-size (50,30),
position already at the clamp corner (50,30) chasing the stationary
out-of-range target (0,0), the easing is positive and the speed cap is not
limiting, yet a tick leaves the position unchanged, so the distance to the
target neither strictly decreases nor is zero. -/
theorem tick_convergence_cex :
    0 < TARGET_EASING ∧
      vecNorm (desired_raw ⟨(50, 30), (0, 0), (0, 0), 100, 60, 900, 600⟩) ≤ MAX_SPEED ∧
      (tick ⟨(50, 30), (0, 0), (0, 0), 100, 60, 900, 600⟩).pos = (50, 30) ∧
      ¬(euclid_dist (tick ⟨(50, 30), (0, 0), (0, 0), 100, 60, 900, 600⟩).pos (0, 0) <
            euclid_dist ((50 : ℝ), (30 : ℝ)) (0, 0) ∨
          euclid_dist (tick ⟨(50, 30), (0, 0), (0, 0), 100, 60, 900, 600⟩).pos (0, 0) = 0) := by
  have hraw : desired_raw ⟨(50, 30), (0, 0), (0, 0), 100, 60, 900, 600⟩ = (-7.5, -4.5) := by
    show ((((0 : ℝ) - 50) * TARGET_EASING, ((0 : ℝ) - 30) * TARGET_EASING) : ℝ × ℝ)
      = (-7.5, -4.5)
    unfold TARGET_EASING
    norm_num
  have hcap : vecNorm (desired_raw ⟨(50, 30), (0, 0), (0, 0), 100, 60, 900, 600⟩) ≤ MAX_SPEED := by
    rw [hraw]
    show Real.sqrt ((-7.5 : ℝ) ^ 2 + (-4.5 : ℝ) ^ 2) ≤ MAX_SPEED
    rw [show ((-7.5 : ℝ)) ^ 2 + (-4.5 : ℝ) ^ 2 = 76.5 by norm_num]
    unfold MAX_SPEED
    rw [show (18 : ℝ) = Real.sqrt (18 ^ 2) by rw [Real.sqrt_sq (by norm_num)]]
    exact Real.sqrt_le_sqrt (by norm_num)
  have hv : desired_velocity ⟨(50, 30), (0, 0), (0, 0), 100, 60, 900, 600⟩ = (-7.5, -4.5) := by
    rw [desired_velocity_of_le _ hcap, hraw]
  have hpos : (tick ⟨(50, 30), (0, 0), (0, 0), 100, 60, 900, 600⟩).pos = (50, 30) := by
    rw [tick_pos_eq, hv]
    refine Prod.ext ?_ ?_
    · show clamp1 (50 + (-7.5)) (100 / 2) (max (100 / 2) (900 - 100 / 2)) = 50
      rw [show (50 : ℝ) + (-7.5) = 42.5 by norm_num, show ((100 : ℝ)) / 2 = 50 by norm_num]
      unfold clamp1
      rw [max_eq_right (by norm_num : (42.5 : ℝ) ≤ 50), min_eq_left (le_max_left _ _)]
    · show clamp1 (30 + (-4.5)) (60 / 2) (max (60 / 2) (600 - 60 / 2)) = 30
      rw [show (30 : ℝ) + (-4.5) = 25.5 by norm_num, show ((60 : ℝ)) / 2 = 30 by norm_num]
      unfold clamp1
      rw [max_eq_right (by norm_num : (25.5 : ℝ) ≤ 30), min_eq_left (le_max_left _ _)]
  refine ⟨by unfold TARGET_EASING; norm_num, hcap, hpos, ?_⟩
  rintro (hlt | heq)
  · rw [hpos] at hlt
    exact lt_irrefl _ hlt
  · rw [hpos] at heq
    unfold euclid_dist at heq
    rw [Real.sqrt_eq_zero'] at heq
    norm_num at heq

/-- Claim C5, amended: for a stationary target lying within the clampable
range of the canvas, with the speed cap not limiting (and the fixed positive
easing 0.15), a tick strictly decreases the Euclidean distance from the
position to the target, or that distance is zero and remains zero. -/
theorem tick_converges (s : ChaserApp) (htb : target_in_bounds s)
    (hcap : vecNorm (desired_raw s) ≤ MAX_SPEED) :
    euclid_dist (tick s).pos s.target < euclid_dist s.pos s.target ∨
      (euclid_dist s.pos s.target = 0 ∧ euclid_dist (tick s).pos s.target = 0) := by
  obtain ⟨ht1, ht2, ht3, ht4⟩ := htb
  have hv : desired_velocity s = desired_raw s := desired_velocity_of_le s hcap
  have htent1 : s.pos.1 + (desired_velocity s).1 - s.target.1 =
      0.85 * (s.pos.1 - s.target.1) := by
    rw [hv]
    show s.pos.1 + (s.target.1 - s.pos.1) * TARGET_EASING - s.target.1 =
      0.85 * (s.pos.1 - s.target.1)
    unfold TARGET_EASING
    ring
  have htent2 : s.pos.2 + (desired_velocity s).2 - s.target.2 =
      0.85 * (s.pos.2 - s.target.2) := by
    rw [hv]
    show s.pos.2 + (s.target.2 - s.pos.2) * TARGET_EASING - s.target.2 =
      0.85 * (s.pos.2 - s.target.2)
    unfold TARGET_EASING
    ring
  have hx : |(tick s).pos.1 - s.target.1| ≤ 0.85 * |s.pos.1 - s.target.1| := by
    have h := clamp1_dist_to_point (s.pos.1 + (desired_velocity s).1) s.target.1
      (s.sprite_w / 2) (max (s.sprite_w / 2) (s.canvas_w - s.sprite_w / 2)) ht1 ht2
    rw [htent1, abs_mul, abs_of_pos (by norm_num : (0 : ℝ) < 0.85)] at h
    exact h
  have hy : |(tick s).pos.2 - s.target.2| ≤ 0.85 * |s.pos.2 - s.target.2| := by
    have h := clamp1_dist_to_point (s.pos.2 + (desired_velocity s).2) s.target.2
      (s.sprite_h / 2) (max (s.sprite_h / 2) (s.canvas_h - s.sprite_h / 2)) ht3 ht4
    rw [htent2, abs_mul, abs_of_pos (by norm_num : (0 : ℝ) < 0.85)] at h
    exact h
  have hx2 : ((tick s).pos.1 - s.target.1) ^ 2 ≤ 0.7225 * (s.pos.1 - s.target.1) ^ 2 := by
    rw [← sq_abs ((tick s).pos.1 - s.target.1), ← sq_abs (s.pos.1 - s.target.1)]
    nlinarith [abs_nonneg ((tick s).pos.1 - s.target.1), abs_nonneg (s.pos.1 - s.target.1)]
  have hy2 : ((tick s).pos.2 - s.target.2) ^ 2 ≤ 0.7225 * (s.pos.2 - s.target.2) ^ 2 := by
    rw [← sq_abs ((tick s).pos.2 - s.target.2), ← sq_abs (s.pos.2 - s.target.2)]
    nlinarith [abs_nonneg ((tick s).pos.2 - s.target.2), abs_nonneg (s.pos.2 - s.target.2)]
  have hold_nn : (0 : ℝ) ≤ (s.pos.1 - s.target.1) ^ 2 + (s.pos.2 - s.target.2) ^ 2 := by
    positivity
  rcases hold_nn.lt_or_eq with hlt | heq
  · left
    unfold euclid_dist
    exact Real.sqrt_lt_sqrt (by positivity) (by nlinarith)
  · right
    have hnew : ((tick s).pos.1 - s.target.1) ^ 2 + ((tick s).pos.2 - s.target.2) ^ 2 = 0 := by
      nlinarith [sq_nonneg ((tick s).pos.1 - s.target.1), sq_nonneg ((tick s).pos.2 - s.target.2)]
    constructor
    · unfold euclid_dist
      rw [← heq, Real.sqrt_zero]
    · unfold euclid_dist
      rw [hnew, Real.sqrt_zero]

/-- Witness for C5 (amended): position (450,300) chasing the nearby in-range
target (400,300); the distance to the target strictly decreases or is zero. -/
theorem tick_converges_witness :
    target_in_bounds ⟨(450, 300), (0, 0), (400, 300), 100, 60, 900, 600⟩ ∧
      vecNorm (desired_raw ⟨(450, 300), (0, 0), (400, 300), 100, 60, 900, 600⟩) ≤ MAX_SPEED ∧
      (euclid_dist (tick ⟨(450, 300), (0, 0), (400, 300), 100, 60, 900, 600⟩).pos (400, 300) <
          euclid_dist ((450 : ℝ), (300 : ℝ)) (400, 300) ∨
        (euclid_dist ((450 : ℝ), (300 : ℝ)) (400, 300) = 0 ∧
          euclid_dist (tick ⟨(450, 300), (0, 0), (400, 300), 100, 60, 900, 600⟩).pos (400, 300) = 0)) := by
  have htb : target_in_bounds ⟨(450, 300), (0, 0), (400, 300), 100, 60, 900, 600⟩ :=
    ⟨by norm_num, le_trans (by norm_num) (le_max_right _ _),
     by norm_num, le_trans (by norm_num) (le_max_right _ _)⟩
  have hcap : vecNorm (desired_raw ⟨(450, 300), (0, 0), (400, 300), 100, 60, 900, 600⟩) ≤
      MAX_SPEED := by
    show Real.sqrt ((((400 : ℝ) - 450) * TARGET_EASING) ^ 2 +
      (((300 : ℝ) - 300) * TARGET_EASING) ^ 2) ≤ MAX_SPEED
    rw [show (((400 : ℝ) - 450) * TARGET_EASING) ^ 2 +
        (((300 : ℝ) - 300) * TARGET_EASING) ^ 2 = 56.25 by unfold TARGET_EASING; norm_num]
    unfold MAX_SPEED
    rw [show (18 : ℝ) = Real.sqrt (18 ^ 2) by rw [Real.sqrt_sq (by norm_num)]]
    exact Real.sqrt_le_sqrt (by norm_num)
  exact ⟨htb, hcap, tick_converges _ htb hcap⟩

end SnoopyChase
